import Mathlib

/-!
Shallow embedding of the SmartTouchComponent touch-processing pipeline
(src/components/sentio/Sentio.cpp together with its header).

The component is single-threaded and tick-driven: each scheduler tick runs
`loop`, which reads at most one pending touch sample from the source driver,
arbitrates sleep/wake, calibrates the sample, classifies gestures and forwards
the calibrated point to the output sink.  We model one tick as a pure function
from the component state, the current millisecond clock reading and the
source's touch list to the successor state plus the list of observable events
emitted during that tick (trigger firings and output-sink forwards).  Trigger
pointers are modelled as all registered: firing a trigger with no registered
handler is a silent no-op in the source, so the event list records every
reached trigger call site.  The millisecond clock is a uint32; all elapsed
time arithmetic goes through `u32sub`, the uint32 wraparound subtraction.
-/

/-- 2^32, the modulus of the uint32 millisecond clock. -/
def U32 : Nat := 2 ^ 32

/-- Unsigned 32-bit subtraction `a - b` as performed on uint32 values in C:
the result is the mathematical difference modulo 2^32. -/
def u32sub (a b : Nat) : Nat := (a + (U32 - b % U32)) % U32

/-- Fixed policy constant: pixels of horizontal displacement to trigger a
swipe (`SWIPE_THRESHOLD` in Sentio.cpp). -/
def SWIPE_THRESHOLD : Int := 30

/-- Fixed policy constant: maximum milliseconds for a tap
(`MAX_TAP_TIME` in Sentio.cpp). -/
def MAX_TAP_TIME : Nat := 400

/-- A touch sample: identifier, coordinates and pressure
(`touchscreen::TouchPoint`). -/
structure TouchPoint where
  id : Nat
  x : Int
  y : Int
  pressure : Int
deriving DecidableEq, Repr

/-- The gesture state machine's states (`enum TouchState` in the header).
`STATE_RELEASED` is declared in the source but never assigned. -/
inductive TouchState where
  | STATE_IDLE
  | STATE_START
  | STATE_DRAGGING
  | STATE_RELEASED
deriving DecidableEq, Repr

/-- Configuration, immutable after construction (the `set_*` members of the
header). -/
structure Config where
  display_width : Int
  display_height : Int
  sleep_timeout_ms : Nat
  suppress_wake_click : Bool
  swap_xy : Bool
  invert_x : Bool
  invert_y : Bool
  debounce_ms : Nat
  debug_raw : Bool
deriving DecidableEq, Repr

/-- The component's mutable runtime state (the protected fields of
`SmartTouchComponent`): activity tracking, the wake-suppression trap flag,
the gesture state machine fields and the output `touches` buffer. -/
structure CompState where
  last_activity_time : Nat
  is_sleeping : Bool
  ignore_next_release : Bool
  state : TouchState
  gesture_start_time : Nat
  start_x : Int
  start_y : Int
  touches : List TouchPoint
deriving DecidableEq, Repr

/-- Observable events of one tick: the five trigger call sites and a forward
of a calibrated point to the output sink
(`add_raw_touch_position_`). -/
inductive Event where
  | on_sleep
  | on_wake
  | on_tap
  | on_swipe_left
  | on_swipe_right
  | forward (p : TouchPoint)
deriving DecidableEq, Repr

/-- `SmartTouchComponent::apply_calibration`: swap, then invert against the
effective (possibly swapped) display dimensions, then clamp both axes to a
minimum of 0. -/
def apply_calibration (cfg : Config) (p : TouchPoint) : TouchPoint :=
  let x := p.x
  let y := p.y
  let xy := if cfg.swap_xy then (y, x) else (x, y)
  let width := if cfg.swap_xy then cfg.display_height else cfg.display_width
  let height := if cfg.swap_xy then cfg.display_width else cfg.display_height
  let x1 := if cfg.invert_x then width - xy.1 else xy.1
  let y1 := if cfg.invert_y then height - xy.2 else xy.2
  let x2 := if x1 < 0 then 0 else x1
  let y2 := if y1 < 0 then 0 else y1
  { p with x := x2, y := y2 }

/-- `SmartTouchComponent::process_gestures`: the gesture and debounce engine,
run once per tick on the calibrated point while a contact is down. -/
def process_gestures (s : CompState) (p : TouchPoint) (now : Nat) :
    CompState × List Event :=
  match s.state with
  | TouchState.STATE_IDLE =>
      ({ s with state := TouchState.STATE_START, start_x := p.x, start_y := p.y,
                gesture_start_time := now }, [])
  | TouchState.STATE_START =>
      let dx := p.x - s.start_x
      if |dx| > SWIPE_THRESHOLD then
        if dx > 0 then
          ({ s with state := TouchState.STATE_DRAGGING }, [Event.on_swipe_right])
        else
          ({ s with state := TouchState.STATE_DRAGGING }, [Event.on_swipe_left])
      else (s, [])
  | TouchState.STATE_DRAGGING => (s, [])
  | TouchState.STATE_RELEASED => (s, [])

/-- `SmartTouchComponent::handle_release`: release classification.  Only a
contact still in `STATE_START` is classified; sub-debounce releases are noise
(and clear the `touches` buffer), releases under `MAX_TAP_TIME` fire the tap
trigger, longer static holds fire nothing. -/
def handle_release (cfg : Config) (s : CompState) (now : Nat) :
    CompState × List Event :=
  if s.state = TouchState.STATE_START then
    let duration := u32sub now s.gesture_start_time
    if duration < cfg.debounce_ms then
      ({ s with touches := [] }, [])
    else if duration < MAX_TAP_TIME then
      (s, [Event.on_tap])
    else (s, [])
  else (s, [])

/-- The sleep check at the top of `SmartTouchComponent::loop`: if the idle
time exceeds the sleep timeout and the component is not already sleeping, set
the sleeping flag and fire the sleep trigger. -/
def sleep_check (cfg : Config) (s : CompState) (now : Nat) :
    CompState × List Event :=
  if u32sub now s.last_activity_time > cfg.sleep_timeout_ms then
    if s.is_sleeping = false then
      ({ s with is_sleeping := true }, [Event.on_sleep])
    else (s, [])
  else (s, [])

/-- The tail of `SmartTouchComponent::loop` after the wake logic (steps
5b-8): refresh the activity timer, bail out if the wake-suppression trap is
armed, otherwise calibrate, run the gesture engine and forward the calibrated
point to the output sink. -/
def loop_tail (cfg : Config) (s : CompState) (now : Nat) (raw_p : TouchPoint)
    (evs : List Event) : CompState × List Event :=
  let s1 := { s with last_activity_time := now }
  if s1.ignore_next_release then (s1, evs)
  else
    let p := apply_calibration cfg raw_p
    let sg := process_gestures s1 p now
    ({ sg.1 with touches := sg.1.touches ++ [p] },
     evs ++ sg.2 ++ [Event.forward p])

/-- `SmartTouchComponent::loop`, one scheduler tick: sleep check, then either
the release path (empty source) or the wake logic followed by the processing
tail.  `now` is the value returned by `millis()` during this tick; `src` is
the source driver's `touches` list. -/
def loop (cfg : Config) (s0 : CompState) (now : Nat) (src : List TouchPoint) :
    CompState × List Event :=
  let sc := sleep_check cfg s0 now
  let s := sc.1
  let evs := sc.2
  match src with
  | [] =>
      if s.state ≠ TouchState.STATE_IDLE then
        let hr := handle_release cfg s now
        ({ hr.1 with state := TouchState.STATE_IDLE, touches := [],
                     ignore_next_release := false }, evs ++ hr.2)
      else (s, evs)
  | raw_p :: _ =>
      if s.is_sleeping then
        let s1 := { s with is_sleeping := false, last_activity_time := now }
        let evs1 := evs ++ [Event.on_wake]
        if cfg.suppress_wake_click then
          ({ s1 with ignore_next_release := true }, evs1)
        else
          loop_tail cfg s1 now raw_p evs1
      else
        loop_tail cfg s now raw_p evs

/-- Run `loop` over a list of ticks, each a clock reading paired with the
source's touch list for that tick, collecting all emitted events in order. -/
def runLoop (cfg : Config) (s : CompState) :
    List (Nat × List TouchPoint) → CompState × List Event
  | [] => (s, [])
  | (now, src) :: rest =>
      let r1 := loop cfg s now src
      let r2 := runLoop cfg r1.1 rest
      (r2.1, r1.2 ++ r2.2)

/-- The state of the component right after `setup()` ran at clock value `t0`:
`last_activity_time_` is initialized to `millis()` and every other runtime
field keeps its in-class initializer. -/
def initState (t0 : Nat) : CompState :=
  { last_activity_time := t0, is_sleeping := false, ignore_next_release := false,
    state := TouchState.STATE_IDLE, gesture_start_time := 0,
    start_x := 0, start_y := 0, touches := [] }

/-- A chain of tick clock readings that never lets the device fall asleep:
starting from activity timestamp `t0`, every tick arrives within the sleep
timeout of the most recent activity refresh (ticks that carry a sample
refresh the activity timestamp; empty ticks do not). -/
def calmFrom (cfg : Config) : Nat → List (Nat × List TouchPoint) → Bool
  | _, [] => true
  | t0, (now, src) :: rest =>
      decide (u32sub now t0 ≤ cfg.sleep_timeout_ms) &&
      calmFrom cfg (if src = [] then t0 else now) rest

/-- The configuration of the spec's end-to-end scenario (section 8): a
320x240 display, 1000 ms sleep timeout, wake-click suppression on, no
swap/invert, 20 ms debounce. -/
def cfgTest : Config :=
  { display_width := 320, display_height := 240, sleep_timeout_ms := 1000,
    suppress_wake_click := true, swap_xy := false, invert_x := false,
    invert_y := false, debounce_ms := 20, debug_raw := false }

/-- `cfgTest` with swap and x-inversion turned on, for the calibration-order
scenario. -/
def cfgSwapInv : Config :=
  { cfgTest with swap_xy := true, invert_x := true }

/-- A sample at (50, 50). -/
def pA : TouchPoint := { id := 0, x := 50, y := 50, pressure := 1 }

/-- A sample at (200, 50): far enough right of (50, 50) to cross the swipe
threshold. -/
def pB : TouchPoint := { id := 0, x := 200, y := 50, pressure := 1 }

/-- The raw input point (10, 5) of the calibration-order scenario. -/
def pCal : TouchPoint := { id := 0, x := 10, y := 5, pressure := 1 }

/-- A component state that is asleep with the gesture engine idle: the state
in which a waking contact arrives. -/
def sAsleep : CompState := { initState 0 with is_sleeping := true }

/-- A state whose gesture machine is in `STATE_START` with the contact having
started at clock 0 and position (100, 100). -/
def sStart100 : CompState :=
  { initState 0 with
    state := TouchState.STATE_START, start_x := 100, start_y := 100 }

/-- A state whose gesture machine is in `STATE_DRAGGING`. -/
def sDrag : CompState := { initState 0 with state := TouchState.STATE_DRAGGING }

/-- The in-contact ticks following a wake at clock 5 for the suppressed
contact of claim C2: held and moved past the swipe threshold, released after
995 ms (past the 400 ms tap limit). -/
def restC2 : List (Nat × List TouchPoint) :=
  [(100, [pA]), (600, [pB]), (1000, [])]

/-- The tick sequence of claim C1: idle past the timeout, a wake-suppressed
contact at 1002, its release at 1100, then a fresh 200 ms contact at (50,50)
released at 1401. -/
def ticksC1 : List (Nat × List TouchPoint) :=
  [(1001, []), (1002, [pA]), (1100, []), (1200, [pA]), (1300, [pA]), (1401, [])]

/-! ## Helper lemmas -/

/-- `sleep_check` flattened into a single conditional. -/
theorem sleep_check_spec (cfg : Config) (s : CompState) (now : Nat) :
    sleep_check cfg s now =
      (if u32sub now s.last_activity_time > cfg.sleep_timeout_ms ∧
          s.is_sleeping = false
       then ({ s with is_sleeping := true }, [Event.on_sleep]) else (s, [])) := by
  unfold sleep_check
  by_cases h1 : u32sub now s.last_activity_time > cfg.sleep_timeout_ms <;>
    by_cases h2 : s.is_sleeping = false <;> simp [h1, h2]

/-- `handle_release` emits either nothing or a single tap event. -/
theorem handle_release_events (cfg : Config) (s : CompState) (now : Nat) :
    (handle_release cfg s now).2 = [] ∨
    (handle_release cfg s now).2 = [Event.on_tap] := by
  by_cases h : s.state = TouchState.STATE_START
  · by_cases h1 : u32sub now s.gesture_start_time < cfg.debounce_ms
    · simp [handle_release, h, h1]
    · by_cases h2 : u32sub now s.gesture_start_time < MAX_TAP_TIME <;>
        simp [handle_release, h, h1, h2]
  · simp [handle_release, h]

/-- `process_gestures` emits either nothing or a single swipe event. -/
theorem process_gestures_events (s : CompState) (p : TouchPoint) (now : Nat) :
    (process_gestures s p now).2 = [] ∨
    (process_gestures s p now).2 = [Event.on_swipe_left] ∨
    (process_gestures s p now).2 = [Event.on_swipe_right] := by
  cases hs : s.state <;> simp only [process_gestures, hs]
  · simp
  · by_cases h1 : |p.x - s.start_x| > SWIPE_THRESHOLD
    · by_cases h2 : p.x - s.start_x > 0 <;> simp [h1, h2]
    · simp [h1]
  · simp
  · simp

/-! ## Claim C5 -/

/-- Claim C5: `apply_calibration` performs the swap before the inversion, and
the inversion uses the effective (swapped) display dimensions.  With
`swap_xy = true` and `invert_x = true` (and `invert_y = false`) on a 320x240
display, an in-range input point (x, y) is mapped to (240 - y, x); in
particular (10, 5) yields x = 240 - 5 = 235 and y = 10. -/
theorem claim_c5 (cfg : Config) (p : TouchPoint)
    (hs : cfg.swap_xy = true) (hix : cfg.invert_x = true)
    (hiy : cfg.invert_y = false)
    (hw : cfg.display_width = 320) (hh : cfg.display_height = 240)
    (h1 : 0 ≤ p.x) (h2 : p.y ≤ 240) :
    apply_calibration cfg p = { p with x := 240 - p.y, y := p.x } := by
  have hx0 : ¬ ((240 : Int) - p.y < 0) := by omega
  have hy0 : ¬ (p.x < 0) := by omega
  simp [apply_calibration, hs, hix, hiy, hh, hx0, hy0]

/-- Witness for C5 at the spec's concrete instance: raw (10, 5) with swap and
x-inversion on a 320x240 display calibrates to (235, 10). -/
theorem claim_c5_witness :
    apply_calibration cfgSwapInv pCal = { id := 0, x := 235, y := 10, pressure := 1 } :=
  (claim_c5 cfgSwapInv pCal rfl rfl rfl rfl rfl (by decide) (by decide)).trans (by decide)

/-! ## Claim C8 -/

/-- Claim C8: under the default calibration configuration (`swap_xy`,
`invert_x`, `invert_y` all false), `apply_calibration` is the identity on
every point with non-negative coordinates. -/
theorem claim_c8 (cfg : Config) (p : TouchPoint)
    (hs : cfg.swap_xy = false) (hix : cfg.invert_x = false)
    (hiy : cfg.invert_y = false)
    (hx : 0 ≤ p.x) (hy : 0 ≤ p.y) :
    apply_calibration cfg p = p := by
  have hx0 : ¬ (p.x < 0) := by omega
  have hy0 : ¬ (p.y < 0) := by omega
  simp [apply_calibration, hs, hix, hiy, hx0, hy0]

/-- Witness for C8: (50, 50) under the all-flags-false configuration is left
unchanged. -/
theorem claim_c8_witness : apply_calibration cfgTest pA = pA :=
  claim_c8 cfgTest pA rfl rfl rfl (by decide) (by decide)

/-! ## Claim C10 -/

/-- Claim C10: `apply_calibration` only rewrites the x and y fields: for every
configuration and every input point the id and pressure of the result equal
those of the input. -/
theorem claim_c10 (cfg : Config) (p : TouchPoint) :
    (apply_calibration cfg p).id = p.id ∧
    (apply_calibration cfg p).pressure = p.pressure :=
  ⟨rfl, rfl⟩

/-! ## Claim C6 -/

/-- Claim C6: on release of a contact still in `STATE_START` (PENDING), with
duration computed as now minus the gesture start timestamp: a duration below
the debounce threshold fires nothing (noise), a duration in
[debounce, MAX_TAP_TIME) fires exactly one tap, and a duration of
MAX_TAP_TIME (400 ms) or more fires nothing. -/
theorem claim_c6 (cfg : Config) (s : CompState) (now : Nat)
    (h : s.state = TouchState.STATE_START) :
    (u32sub now s.gesture_start_time < cfg.debounce_ms →
      (handle_release cfg s now).2 = []) ∧
    (cfg.debounce_ms ≤ u32sub now s.gesture_start_time →
      u32sub now s.gesture_start_time < MAX_TAP_TIME →
      (handle_release cfg s now).2 = [Event.on_tap]) ∧
    (MAX_TAP_TIME ≤ u32sub now s.gesture_start_time →
      (handle_release cfg s now).2 = []) := by
  refine ⟨fun h1 => ?_, fun h1 h2 => ?_, fun h1 => ?_⟩
  · simp [handle_release, h, h1]
  · simp [handle_release, h, Nat.not_lt.mpr h1, h2]
  · by_cases hd : u32sub now s.gesture_start_time < cfg.debounce_ms
    · simp [handle_release, h, hd]
    · simp [handle_release, h, hd, Nat.not_lt.mpr h1]

/-- Witness for C6: a contact started at clock 0 in `STATE_START` and
released at 10 ms fires nothing (below the 20 ms debounce), at 150 ms fires
exactly one tap, and at 500 ms fires nothing. -/
theorem claim_c6_witness :
    (handle_release cfgTest sStart100 10).2 = [] ∧
    (handle_release cfgTest sStart100 150).2 = [Event.on_tap] ∧
    (handle_release cfgTest sStart100 500).2 = [] :=
  ⟨(claim_c6 cfgTest sStart100 10 rfl).1 (by decide),
   (claim_c6 cfgTest sStart100 150 rfl).2.1 (by decide) (by decide),
   (claim_c6 cfgTest sStart100 500 rfl).2.2 (by decide)⟩

/-! ## Claim C7 -/

/-- Claim C7: from `STATE_START` (PENDING) the transition to
`STATE_DRAGGING` (CONFIRMED_DRAG) happens exactly when the horizontal
displacement from the start position exceeds the swipe threshold of 30 - the
vertical coordinate plays no role - and on that transition exactly one swipe
event fires, right for positive displacement and left for negative; while in
`STATE_DRAGGING` no further event fires and the state is unchanged, and a
release in `STATE_DRAGGING` fires no tap. -/
theorem claim_c7 (cfg : Config) (s : CompState) (p : TouchPoint) (now : Nat)
    (h : s.state = TouchState.STATE_START) :
    (|p.x - s.start_x| ≤ SWIPE_THRESHOLD → process_gestures s p now = (s, [])) ∧
    (SWIPE_THRESHOLD < |p.x - s.start_x| →
      (process_gestures s p now).1.state = TouchState.STATE_DRAGGING ∧
      (process_gestures s p now).2 =
        (if 0 < p.x - s.start_x then [Event.on_swipe_right]
         else [Event.on_swipe_left])) ∧
    (∀ s2 : CompState, s2.state = TouchState.STATE_DRAGGING →
      process_gestures s2 p now = (s2, []) ∧
      (handle_release cfg s2 now).2 = []) := by
  refine ⟨fun h1 => ?_, fun h1 => ?_, fun s2 h2 => ⟨?_, ?_⟩⟩
  · simp [process_gestures, h, Int.not_lt.mpr h1]
  · by_cases hp : 0 < p.x - s.start_x <;>
      simp [process_gestures, h, h1, hp]
  · simp [process_gestures, h2]
  · simp [handle_release, h2]

/-- Witness for C7: from `STATE_START` started at (100, 100), a sample at
x = 50 (displacement -50, beyond the threshold) transitions to
`STATE_DRAGGING` and fires exactly one swipe-left; in `STATE_DRAGGING` the
same sample produces no event and no state change, and a release fires no
tap. -/
theorem claim_c7_witness :
    (process_gestures sStart100 pA 5).1.state = TouchState.STATE_DRAGGING ∧
    (process_gestures sStart100 pA 5).2 = [Event.on_swipe_left] ∧
    process_gestures sDrag pA 5 = (sDrag, []) ∧
    (handle_release cfgTest sDrag 5).2 = [] :=
  ⟨((claim_c7 cfgTest sStart100 pA 5 rfl).2.1 (by decide)).1,
   ((claim_c7 cfgTest sStart100 pA 5 rfl).2.1 (by decide)).2.trans (by decide),
   ((claim_c7 cfgTest sStart100 pA 5 rfl).2.2 sDrag rfl).1,
   ((claim_c7 cfgTest sStart100 pA 5 rfl).2.2 sDrag rfl).2⟩

/-! ## Claim C9 -/

/-- Claim C9: elapsed-time computations are unsigned 32-bit subtractions of
the current clock reading from a past one, so for any true elapsed time below
2^32 they recover the exact elapsed milliseconds even across the uint32
rollover; concretely, the sleep-timeout check in `loop` and the
release-duration classification in `handle_release` behave as if computed on
the unwrapped clock. -/
theorem claim_c9 (tnow tpast : Nat) (h1 : tpast ≤ tnow)
    (h2 : tnow - tpast < 2 ^ 32) :
    u32sub (tnow % 2 ^ 32) (tpast % 2 ^ 32) = tnow - tpast ∧
    (∀ (cfg : Config) (s : CompState),
      s.state = TouchState.STATE_IDLE →
      s.last_activity_time = tpast % 2 ^ 32 →
      (loop cfg s (tnow % 2 ^ 32) []).2 =
        (if tnow - tpast > cfg.sleep_timeout_ms ∧ s.is_sleeping = false
         then [Event.on_sleep] else [])) ∧
    (∀ (cfg : Config) (s : CompState),
      s.state = TouchState.STATE_START →
      s.gesture_start_time = tpast % 2 ^ 32 →
      (handle_release cfg s (tnow % 2 ^ 32)).2 =
        (if tnow - tpast < cfg.debounce_ms then []
         else if tnow - tpast < MAX_TAP_TIME then [Event.on_tap] else [])) := by
  have h32 : (2 : Nat) ^ 32 = 4294967296 := by norm_num
  have e : u32sub (tnow % 2 ^ 32) (tpast % 2 ^ 32) = tnow - tpast := by
    unfold u32sub U32
    simp only [h32] at *
    omega
  refine ⟨e, fun cfg s hst hla => ?_, fun cfg s hst hgt => ?_⟩
  · simp only [loop, sleep_check_spec, hla, e]
    by_cases hc : tnow - tpast > cfg.sleep_timeout_ms ∧ s.is_sleeping = false <;>
      simp [hc, hst]
  · rw [handle_release]
    simp only [hst, if_true, hgt, e]
    by_cases hd : tnow - tpast < cfg.debounce_ms
    · simp [hd]
    · by_cases ht : tnow - tpast < MAX_TAP_TIME <;> simp [hd, ht]

/-- Witness for C9 across the rollover boundary: a contact that started
100 ms before the uint32 clock wrapped and is checked 50 ms after the wrap
has a computed elapsed time of exactly 150 ms. -/
theorem claim_c9_witness :
    u32sub ((2 ^ 32 + 50) % 2 ^ 32) ((2 ^ 32 - 100) % 2 ^ 32) = 150 :=
  (claim_c9 (2 ^ 32 + 50) (2 ^ 32 - 100) (by norm_num) (by norm_num)).1

/-! ## Claim C1 -/

/-- Claim C1 (code bug): in the spec's own end-to-end scenario - sleep at
1001 ms, a wake-suppressed contact at 1002 ms, its release at 1100 ms, then a
fresh 200 ms contact at (50,50) - the code never clears
`ignore_next_release_` on the release tick (the reset sits inside the
`state_ != STATE_IDLE` branch, but a suppressed contact never leaves
`STATE_IDLE`), so the trap stays armed and the next independent contact is
swallowed: no forward of (50,50) and no tap fire, only the initial sleep and
wake events are ever emitted. -/
theorem claim_c1_code_bug :
    (runLoop cfgTest (initState 0) ticksC1).2 = [Event.on_sleep, Event.on_wake] ∧
    (runLoop cfgTest (initState 0) ticksC1).1.ignore_next_release = true := by
  constructor <;> decide

/-! ## Claim C4 -/

/-- Counterexample to claim C4: after a tick whose sample set is the
non-empty list [pA] (the wake-suppressed contact of the scenario), the
gesture mode is still `STATE_IDLE`, so the claimed "mode is IDLE iff no
contact is down" fails in the right-to-left direction on trap-armed ticks. -/
theorem claim_c4_counterexample :
    ([pA] : List TouchPoint) ≠ [] ∧
    (runLoop cfgTest (initState 0) [(1001, []), (1002, [pA])]).1.state =
      TouchState.STATE_IDLE := by
  constructor <;> decide

/-- Claim C4 as amended: after any tick with no sample the gesture mode is
`STATE_IDLE`, and a tick carrying a sample that is processed normally (mode
idle, device awake, within the sleep timeout, trap not armed) leaves the mode
non-idle; but the equivalence claimed for trap-armed ticks fails - a
wake-suppressed contact keeps the mode `STATE_IDLE` while it is down. -/
theorem claim_c4_amended (cfg : Config) (s : CompState) (now : Nat)
    (p : TouchPoint) (src : List TouchPoint) :
    (loop cfg s now []).1.state = TouchState.STATE_IDLE ∧
    (s.state = TouchState.STATE_IDLE → s.is_sleeping = false →
      s.ignore_next_release = false →
      u32sub now s.last_activity_time ≤ cfg.sleep_timeout_ms →
      (loop cfg s now (p :: src)).1.state ≠ TouchState.STATE_IDLE) := by
  constructor
  · simp only [loop, sleep_check_spec]
    by_cases hc : u32sub now s.last_activity_time > cfg.sleep_timeout_ms ∧
        s.is_sleeping = false <;>
      by_cases hst : s.state = TouchState.STATE_IDLE <;>
      simp [hc, hst]
  · intro hst hsl htr hcalm
    have hlt : ¬ (cfg.sleep_timeout_ms < u32sub now s.last_activity_time) :=
      Nat.not_lt.mpr hcalm
    simp [loop, sleep_check_spec, hlt, hsl, loop_tail, htr, process_gestures, hst]

/-- Witness for the amended C4: an empty tick from the initial state leaves
the mode `STATE_IDLE`, and a normally processed contact tick makes it
non-idle. -/
theorem claim_c4_amended_witness :
    (loop cfgTest (initState 0) 5 []).1.state = TouchState.STATE_IDLE ∧
    (loop cfgTest (initState 0) 5 [pA]).1.state ≠ TouchState.STATE_IDLE :=
  ⟨(claim_c4_amended cfgTest (initState 0) 5 pA []).1,
   (claim_c4_amended cfgTest (initState 0) 5 pA []).2 rfl rfl rfl (by decide)⟩

/-! ## Claim C3 -/

/-- Counterexample to claim C3: from the freshly initialized (awake) state,
on the single tick at 1001 ms that both exceeds the 1000 ms idle timeout and
carries a sample, the sleep trigger and the wake trigger both fire for the
same sample. -/
theorem claim_c3_counterexample :
    Event.on_sleep ∈ (loop cfgTest (initState 0) 1001 [pA]).2 ∧
    Event.on_wake ∈ (loop cfgTest (initState 0) 1001 [pA]).2 := by
  constructor <;> decide

/-- When the device is already sleeping, the sleep check changes nothing and
emits nothing. -/
theorem sleep_check_sleeping (cfg : Config) (s : CompState) (now : Nat)
    (h : s.is_sleeping = true) : sleep_check cfg s now = (s, []) := by
  rw [sleep_check_spec]
  simp [h]

/-- `handle_release` never emits an event other than a tap. -/
theorem handle_release_not_mem (cfg : Config) (s : CompState) (now : Nat)
    (e : Event) (he : e ≠ Event.on_tap) :
    e ∉ (handle_release cfg s now).2 := by
  rcases handle_release_events cfg s now with h | h <;> simp [h, he]

/-- A tick with an empty sample list never fires the wake trigger. -/
theorem loop_empty_no_wake (cfg : Config) (s : CompState) (now : Nat) :
    Event.on_wake ∉ (loop cfg s now []).2 := by
  simp only [loop, sleep_check_spec]
  by_cases hc : u32sub now s.last_activity_time > cfg.sleep_timeout_ms ∧
      s.is_sleeping = false
  · simp only [if_pos hc]
    by_cases hst : s.state = TouchState.STATE_IDLE
    · simp [hst]
    · rcases handle_release_events cfg { s with is_sleeping := true } now with
        hr | hr <;> simp [hst, hr]
  · simp only [if_neg hc]
    by_cases hst : s.state = TouchState.STATE_IDLE
    · simp [hst]
    · rcases handle_release_events cfg s now with hr | hr <;> simp [hst, hr]

/-- `process_gestures` never emits an event other than a swipe. -/
theorem process_gestures_not_mem (s : CompState) (p : TouchPoint) (now : Nat)
    (e : Event) (h3 : e ≠ Event.on_swipe_left) (h4 : e ≠ Event.on_swipe_right) :
    e ∉ (process_gestures s p now).2 := by
  rcases process_gestures_events s p now with h | h | h <;> simp [h, h3, h4]

/-- `loop_tail` adds only gesture and forward events: membership of any
other event kind in its output is membership in the events accumulated so
far. -/
theorem loop_tail_mem (cfg : Config) (s : CompState) (now : Nat)
    (raw_p : TouchPoint) (evs : List Event) (e : Event)
    (h3 : e ≠ Event.on_swipe_left) (h4 : e ≠ Event.on_swipe_right)
    (h5 : ∀ q, e ≠ Event.forward q) :
    (e ∈ (loop_tail cfg s now raw_p evs).2 ↔ e ∈ evs) := by
  by_cases h : s.ignore_next_release
  · simp [loop_tail, h]
  · have h' : s.ignore_next_release = false := by
      revert h; cases s.ignore_next_release <;> simp
    simp only [loop_tail, h', Bool.false_eq_true, if_false, List.mem_append,
      List.mem_singleton]
    constructor
    · rintro ((he | he) | he)
      · exact he
      · exact absurd he (process_gestures_not_mem _ _ _ e h3 h4)
      · exact absurd he (h5 _)
    · exact fun he => Or.inl (Or.inl he)

/-- Claim C3 as amended: the sleep and wake triggers both fire on one tick
exactly when that tick first crosses the idle timeout (device previously
awake) while carrying a sample - the sleep check runs before the sample is
read, flags the device asleep, and the wake logic then immediately fires for
the very sample that exceeded the timeout.  On every other tick at most one
of the two fires. -/
theorem claim_c3_amended (cfg : Config) (s : CompState) (now : Nat)
    (src : List TouchPoint) :
    (Event.on_sleep ∈ (loop cfg s now src).2 ∧
      Event.on_wake ∈ (loop cfg s now src).2) ↔
    (s.is_sleeping = false ∧
      u32sub now s.last_activity_time > cfg.sleep_timeout_ms ∧ src ≠ []) := by
  rcases src with _ | ⟨q, qs⟩
  · have hw := loop_empty_no_wake cfg s now
    constructor
    · intro h
      exact absurd h.2 hw
    · intro h
      exact absurd rfl h.2.2
  · by_cases hsl : s.is_sleeping
    · have hsc := sleep_check_sleeping cfg s now hsl
      by_cases hsu : cfg.suppress_wake_click
      · simp [loop, hsc, hsl, hsu]
      · have heq : loop cfg s now (q :: qs) =
            loop_tail cfg { s with is_sleeping := false, last_activity_time := now }
              now q [Event.on_wake] := by
          simp [loop, hsc, hsl, hsu]
        rw [heq, loop_tail_mem _ _ _ _ _ _ (by simp) (by simp)
          (fun r he => Event.noConfusion he),
          loop_tail_mem _ _ _ _ _ _ (by simp) (by simp)
          (fun r he => Event.noConfusion he)]
        simp [hsl]
    · have hsl' : s.is_sleeping = false := by
        revert hsl; cases s.is_sleeping <;> simp
      by_cases hc : u32sub now s.last_activity_time > cfg.sleep_timeout_ms
      · have hsc : sleep_check cfg s now =
            ({ s with is_sleeping := true }, [Event.on_sleep]) := by
          rw [sleep_check_spec]
          simp [hc, hsl']
        by_cases hsu : cfg.suppress_wake_click
        · simp [loop, hsc, hsu, hsl', hc]
        · have heq : loop cfg s now (q :: qs) =
              loop_tail cfg
                { s with is_sleeping := false, last_activity_time := now }
                now q [Event.on_sleep, Event.on_wake] := by
            simp [loop, hsc, hsu]
          rw [heq, loop_tail_mem _ _ _ _ _ _ (by simp) (by simp)
            (fun r he => Event.noConfusion he),
            loop_tail_mem _ _ _ _ _ _ (by simp) (by simp)
            (fun r he => Event.noConfusion he)]
          simp [hsl', hc]
      · have hsc : sleep_check cfg s now = (s, []) := by
          rw [sleep_check_spec]
          simp [hc]
        have heq : loop cfg s now (q :: qs) =
            loop_tail cfg s now q [] := by
          simp [loop, hsc, hsl']
        rw [heq, loop_tail_mem _ _ _ _ _ _ (by simp) (by simp)
          (fun r he => Event.noConfusion he),
          loop_tail_mem _ _ _ _ _ _ (by simp) (by simp)
          (fun r he => Event.noConfusion he)]
        simp [hc]

/-- One tick from a trapped-and-awake state (trap armed, gesture machine
idle, not sleeping) that stays within the sleep timeout emits no event and
preserves the trapped state; the activity timestamp is refreshed exactly on
ticks that carry a sample. -/
theorem trapped_tick (cfg : Config) (s : CompState) (now : Nat)
    (src : List TouchPoint)
    (h1 : s.ignore_next_release = true) (h2 : s.state = TouchState.STATE_IDLE)
    (h3 : s.is_sleeping = false)
    (h4 : u32sub now s.last_activity_time ≤ cfg.sleep_timeout_ms) :
    (loop cfg s now src).2 = [] ∧
    (loop cfg s now src).1.ignore_next_release = true ∧
    (loop cfg s now src).1.state = TouchState.STATE_IDLE ∧
    (loop cfg s now src).1.is_sleeping = false ∧
    (loop cfg s now src).1.last_activity_time =
      (if src = [] then s.last_activity_time else now) := by
  have hlt : ¬ (cfg.sleep_timeout_ms < u32sub now s.last_activity_time) :=
    Nat.not_lt.mpr h4
  have hsc : sleep_check cfg s now = (s, []) := by
    rw [sleep_check_spec]
    simp [hlt]
  rcases src with _ | ⟨q, qs⟩
  · simp [loop, hsc, h1, h2, h3]
  · simp [loop, hsc, h3, loop_tail, h1, h2]

/-- Running any calm tick chain from a trapped-and-awake state emits no event
at all and leaves the component trapped: the wake-suppression trap blocks the
whole pipeline, and because the gesture machine never left `STATE_IDLE`, the
release path never executes the trap reset. -/
theorem trapped_run (cfg : Config) (s : CompState)
    (ticks : List (Nat × List TouchPoint))
    (h1 : s.ignore_next_release = true) (h2 : s.state = TouchState.STATE_IDLE)
    (h3 : s.is_sleeping = false)
    (hcalm : calmFrom cfg s.last_activity_time ticks = true) :
    (runLoop cfg s ticks).2 = [] ∧
    (runLoop cfg s ticks).1.ignore_next_release = true ∧
    (runLoop cfg s ticks).1.state = TouchState.STATE_IDLE ∧
    (runLoop cfg s ticks).1.is_sleeping = false := by
  induction ticks generalizing s with
  | nil => exact ⟨rfl, h1, h2, h3⟩
  | cons t rest ih =>
      obtain ⟨now, src⟩ := t
      rw [calmFrom] at hcalm
      have hcalm1 : u32sub now s.last_activity_time ≤ cfg.sleep_timeout_ms := by
        have := Bool.and_eq_true_iff.mp hcalm
        exact of_decide_eq_true this.1
      have hcalm2 : calmFrom cfg
          (if src = [] then s.last_activity_time else now) rest = true :=
        (Bool.and_eq_true_iff.mp hcalm).2
      obtain ⟨he, ht1, ht2, ht3, ht4⟩ := trapped_tick cfg s now src h1 h2 h3 hcalm1
      have hrest := ih (loop cfg s now src).1 ht1 ht2 ht3 (by rw [ht4]; exact hcalm2)
      refine ⟨?_, hrest.2.1, hrest.2.2.1, hrest.2.2.2⟩
      simp only [runLoop]
      rw [he, hrest.1, List.append_nil]

/-! ## Claim C2 -/

/-- Claim C2: a contact that arrives while the device is asleep with
wake-click suppression configured fires the wake trigger exactly once, and
for the contact's entire lifetime - however long it is held and however it
moves, as long as consecutive ticks stay within the sleep timeout - nothing
else is emitted: no coordinate is forwarded to the output sink, the gesture
machine never leaves `STATE_IDLE` (classification is never run), and no tap
or swipe trigger fires.  The whole run emits exactly `[on_wake]`. -/
theorem claim_c2 (cfg : Config) (s : CompState) (now1 : Nat) (p : TouchPoint)
    (ps : List TouchPoint) (rest : List (Nat × List TouchPoint))
    (hsup : cfg.suppress_wake_click = true)
    (hsleep : s.is_sleeping = true)
    (hidle : s.state = TouchState.STATE_IDLE)
    (hcalm : calmFrom cfg now1 rest = true) :
    (runLoop cfg s ((now1, p :: ps) :: rest)).2 = [Event.on_wake] ∧
    (runLoop cfg s ((now1, p :: ps) :: rest)).1.state =
      TouchState.STATE_IDLE := by
  have hsc := sleep_check_sleeping cfg s now1 hsleep
  have h1 : loop cfg s now1 (p :: ps) =
      ({ s with is_sleeping := false, last_activity_time := now1,
                ignore_next_release := true }, [Event.on_wake]) := by
    simp [loop, hsc, hsleep, hsup]
  have hrun := trapped_run cfg
    { s with is_sleeping := false, last_activity_time := now1,
             ignore_next_release := true } rest rfl hidle rfl hcalm
  constructor
  · simp only [runLoop, h1]
    rw [hrun.1, List.append_nil]
  · simp only [runLoop, h1]
    exact hrun.2.2.1

/-- Witness for C2: from the asleep idle state, a suppressed waking contact
at 5 ms, held and moved past the swipe threshold at 100 ms and 600 ms and
released at 1000 ms (995 ms total, past the 400 ms tap limit), emits exactly
one wake event and nothing else, and leaves the gesture machine idle. -/
theorem claim_c2_witness :
    (runLoop cfgTest sAsleep ((5, [pA]) :: restC2)).2 = [Event.on_wake] ∧
    (runLoop cfgTest sAsleep ((5, [pA]) :: restC2)).1.state =
      TouchState.STATE_IDLE :=
  claim_c2 cfgTest sAsleep 5 pA [] restC2 rfl rfl rfl (by decide)
